import Mathlib

/-!
Verification of the data-loading introspection helpers in
`pytorch_lightning/utilities/data.py`: batch-size extraction over nested
batch values, iterable-dataset detection, the length-availability check
and the effective-length query.

The Python functions are shallowly embedded: the recursive batch union
`BType = Union[torch.Tensor, str, Mapping[Any, BType], Iterable[BType]]`
becomes an inductive type, a dataloader becomes a record carrying its
optional `dataset` attribute and the (deterministic) outcome of `len()`,
Python exceptions become an `Except` error type, and the rank-aware
warning side channel becomes an explicit list of emitted messages.
-/

namespace PLData

/-- Outcome of a Python operation that may raise: the exception kinds that
the code under verification distinguishes (`TypeError`,
`NotImplementedError`, `ValueError(msg)`), plus a catch-all for any other
exception the length query might raise. -/
inductive PyExc where
  | typeError
  | notImplementedError
  | valueError (msg : String)
  | other (msg : String)
deriving DecidableEq, Repr

/-- A batch value, embedding the recursive union
`BType = Union[torch.Tensor, str, Mapping[Any, BType], Iterable[BType]]`.
A tensor is abstracted by the size of its leading dimension (`size(0)`);
a `dict` keeps its entries in insertion order; a generic iterable keeps
its elements in iteration order. `intVal` and `pyNone` stand for scalar
values that match none of the recognized shapes (such as the default
sentinel `1` used by `next(..., 1)`, or `None`). -/
inductive BType where
  | tensor (size0 : Nat)
  | strv (s : String)
  | dict (entries : List (String × BType))
  | iter (elems : List BType)
  | intVal (i : Int)
  | pyNone
deriving Repr

/-- Embedding of `extract_batch_size(batch)`. The Python body is a chain
of `isinstance` dispatches, each branch a `return`; the result is wrapped
in `Except` because Python code may in principle raise, and the theorems
show this function never does.

For `dict`/iterable branches the source computes
`sample = next(iter(...), 1)` and recurses on `sample`; when the
container is empty, `sample` is the integer `1`, and recursing on an
integer falls through every `isinstance` test to the final `return 1`,
so the empty arms return `1` directly. -/
def extract_batch_size : BType → Except PyExc Nat
  | .tensor size0 => .ok size0
  | .strv s => .ok s.length
  | .dict ((_, v) :: _) => extract_batch_size v
  | .dict [] => .ok 1
  | .iter (x :: _) => extract_batch_size x
  | .iter [] => .ok 1
  | .intVal _ => .ok 1
  | .pyNone => .ok 1

/-- A dataset, abstracted to the one capability the code inspects:
whether its runtime type belongs to the iterable-dataset variant
(`isinstance(dataset, IterableDataset)`), an opaque tag attached by the
external data-loading abstraction. -/
structure Dataset where
  isIterable : Bool
deriving DecidableEq, Repr

/-- A data-loading object: it optionally exposes a `dataset` attribute
(`hasattr(dataloader, "dataset")` is `Option.isSome`), and its length
query `len(dataloader)` deterministically either returns a natural
number or raises an exception. -/
structure DataLoader where
  dataset : Option Dataset
  lenResult : Except PyExc Nat
deriving Repr

/-- The length query `len(dataloader)`: deterministic in this model, so
repeated queries on the same unchanged dataloader agree. -/
def pyLen (dl : DataLoader) : Except PyExc Nat := dl.lenResult

/-- Embedding of `has_iterable_dataset(dataloader)`:
`hasattr(dataloader, "dataset") and isinstance(dataloader.dataset, IterableDataset)`. -/
def has_iterable_dataset (dl : DataLoader) : Bool :=
  match dl.dataset with
  | some ds => ds.isIterable
  | none => false

/-- The message of the `ValueError` raised on a zero-length dataloader. -/
def emptyLenMsg : String :=
  "`Dataloader` returned 0 length. Please make sure that it returns at least 1 batch"

/-- The advisory warning emitted for an `IterableDataset` with `__len__`. -/
def warnMsg : String :=
  "Your `IterableDataset` has `__len__` defined. In combination with multi-process data loading (when num_workers > 1), `__len__` could be inaccurate if each worker is not configured independently to avoid having duplicate data."

/-- Modelled from the spec: `rank_zero_warn` is imported from
`pytorch_lightning.utilities`, whose source is not part of this excerpt.
Per the spec it emits the advisory warning only on the designated primary
process (rank zero) and suppresses it on every other rank; the emitted
messages are modelled as the returned list. -/
def rank_zero_warn (rank : Nat) (msg : String) : List String :=
  if rank = 0 then [msg] else []

/-- Embedding of `has_len(dataloader)`. The `try` block queries the
length: a zero length raises `ValueError(emptyLenMsg)` (caught by
neither `except` clause, hence propagated), a positive length sets
`has_len = True`, and `except TypeError` / `except NotImplementedError`
set `has_len = False`; any other exception from the query propagates.
Afterwards, if `has_len and has_iterable_dataset(dataloader)`, the
advisory warning is emitted via `rank_zero_warn`. The result pairs the
returned boolean with the list of warnings emitted on this rank. -/
def has_len (rank : Nat) (dl : DataLoader) : Except PyExc (Bool × List String) :=
  let tried : Except PyExc Bool :=
    match pyLen dl with
    | .ok 0 => .error (.valueError emptyLenMsg)
    | .ok _ => .ok true
    | .error .typeError => .ok false
    | .error .notImplementedError => .ok false
    | .error e => .error e
  match tried with
  | .error e => .error e
  | .ok hl =>
      let warnings := if hl && has_iterable_dataset dl then rank_zero_warn rank warnMsg else []
      .ok (hl, warnings)

/-- Return value of `get_len`: a finite integer length or the
float positive-infinity sentinel. -/
inductive LenValue where
  | intLen (n : Nat)
  | inf
deriving DecidableEq, Repr

/-- Embedding of `get_len(dataloader)`: if `has_len(dataloader)` then
`return len(dataloader)` (the length is re-queried), else
`return float of inf`. Exceptions from `has_len` (and from the re-query)
propagate; warnings emitted by `has_len` are carried along. -/
def get_len (rank : Nat) (dl : DataLoader) : Except PyExc (LenValue × List String) :=
  match has_len rank dl with
  | .error e => .error e
  | .ok (hl, warnings) =>
      if hl then
        match pyLen dl with
        | .ok n => .ok (.intLen n, warnings)
        | .error e => .error e
      else
        .ok (.inf, warnings)

/-- Helper: full characterization of `has_len` by the outcome of the
length query. -/
theorem has_len_eq (rank : Nat) (dl : DataLoader) :
    has_len rank dl =
      match pyLen dl with
      | .ok 0 => .error (.valueError emptyLenMsg)
      | .ok _ =>
          .ok (true, if has_iterable_dataset dl then rank_zero_warn rank warnMsg else [])
      | .error .typeError => .ok (false, [])
      | .error .notImplementedError => .ok (false, [])
      | .error e => .error e := by
  unfold has_len
  cases hq : pyLen dl with
  | ok n => cases n <;> simp
  | error e => cases e <;> simp

/-- Helper: `extract_batch_size` succeeds on every (finite, acyclic)
batch value. -/
theorem extract_batch_size_isOk : ∀ b : BType, ∃ n, extract_batch_size b = Except.ok n
  | .tensor s => ⟨s, rfl⟩
  | .strv s => ⟨s.length, rfl⟩
  | .dict [] => ⟨1, rfl⟩
  | .dict ((_, v) :: _) => extract_batch_size_isOk v
  | .iter [] => ⟨1, rfl⟩
  | .iter (x :: _) => extract_batch_size_isOk x
  | .intVal _ => ⟨1, rfl⟩
  | .pyNone => ⟨1, rfl⟩

/-- Claim C4: for every mapping batch, extract_batch_size equals
extract_batch_size applied to the first value in insertion order, and for
every empty mapping it returns 1. -/
theorem extract_batch_size_dict :
    (∀ (k : String) (v : BType) (t : List (String × BType)),
        extract_batch_size (.dict ((k, v) :: t)) = extract_batch_size v)
    ∧ extract_batch_size (.dict []) = Except.ok 1 :=
  ⟨fun _ _ _ => rfl, rfl⟩

/-- Claim C5: for every iterable batch that is not a tensor, text value or
mapping, extract_batch_size equals extract_batch_size applied to the first
element in iteration order, and for every empty such iterable it
returns 1. -/
theorem extract_batch_size_iter :
    (∀ (x : BType) (t : List BType),
        extract_batch_size (.iter (x :: t)) = extract_batch_size x)
    ∧ extract_batch_size (.iter []) = Except.ok 1 :=
  ⟨fun _ _ => rfl, rfl⟩

/-- Claim C6: for every tensor batch whose leading dimension has size N,
extract_batch_size returns N, and for every text batch it returns the
character length. -/
theorem extract_batch_size_tensor_str :
    (∀ n : Nat, extract_batch_size (.tensor n) = Except.ok n)
    ∧ (∀ s : String, extract_batch_size (.strv s) = Except.ok s.length) :=
  ⟨fun _ => rfl, fun _ => rfl⟩

/-- Claim C7: for every finite, acyclic batch value, extract_batch_size
never fails — every branch returns an integer — and a value matching none
of the recognized shapes (an integer scalar or None) yields the default 1
rather than raising. -/
theorem extract_batch_size_never_fails :
    (∀ b : BType, ∃ n, extract_batch_size b = Except.ok n)
    ∧ (∀ i : Int, extract_batch_size (.intVal i) = Except.ok 1)
    ∧ extract_batch_size .pyNone = Except.ok 1 :=
  ⟨extract_batch_size_isOk, fun _ => rfl, rfl⟩

/-- Claim C9: has_iterable_dataset returns true iff the dataloader
exposes a dataset attribute whose dataset is of the iterable variant; it
returns false when the attribute is absent or the dataset is of the sized
variant. -/
theorem has_iterable_dataset_spec (dl : DataLoader) :
    (has_iterable_dataset dl = true ↔
        ∃ ds, dl.dataset = some ds ∧ ds.isIterable = true)
    ∧ (dl.dataset = none → has_iterable_dataset dl = false)
    ∧ (∀ ds, dl.dataset = some ds → ds.isIterable = false →
        has_iterable_dataset dl = false) := by
  refine ⟨?_, ?_, ?_⟩
  · constructor
    · intro h
      match hd : dl.dataset with
      | some ds =>
          refine ⟨ds, rfl, ?_⟩
          simpa [has_iterable_dataset, hd] using h
      | none => simp [has_iterable_dataset, hd] at h
    · rintro ⟨ds, hd, hit⟩
      simp [has_iterable_dataset, hd, hit]
  · intro hd
    simp [has_iterable_dataset, hd]
  · intro ds hd hit
    simp [has_iterable_dataset, hd, hit]

/-- Witness for C9 at concrete dataloaders: one without a dataset
attribute, one with a sized-variant dataset. -/
theorem has_iterable_dataset_spec_witness :
    has_iterable_dataset ⟨none, Except.ok 1⟩ = false
    ∧ has_iterable_dataset ⟨some ⟨false⟩, Except.ok 1⟩ = false :=
  ⟨(has_iterable_dataset_spec ⟨none, Except.ok 1⟩).2.1 rfl,
   (has_iterable_dataset_spec ⟨some ⟨false⟩, Except.ok 1⟩).2.2 ⟨false⟩ rfl rfl⟩

/-- Claim C1: for every dataloader whose length query deterministically
succeeds with a positive integer N, has_len returns true and get_len
returns N (get_len re-queries the length after the has_len check, and in
this deterministic model the re-query agrees). -/
theorem has_len_get_len_positive (rank : Nat) (dl : DataLoader) (n : Nat)
    (hq : pyLen dl = Except.ok n) (hpos : 0 < n) :
    has_len rank dl = Except.ok (true,
        if has_iterable_dataset dl then rank_zero_warn rank warnMsg else [])
    ∧ get_len rank dl = Except.ok (.intLen n,
        if has_iterable_dataset dl then rank_zero_warn rank warnMsg else []) := by
  obtain ⟨m, rfl⟩ : ∃ m, n = m + 1 := ⟨n - 1, by omega⟩
  have h1 : has_len rank dl = Except.ok (true,
      if has_iterable_dataset dl then rank_zero_warn rank warnMsg else []) := by
    rw [has_len_eq, hq]
    rfl
  refine ⟨h1, ?_⟩
  unfold get_len
  rw [h1, hq]
  rfl

/-- Witness for C1: a dataloader with length 5 and no dataset attribute
has has_len true and get_len 5. -/
theorem has_len_get_len_positive_witness :
    has_len 0 ⟨none, Except.ok 5⟩ = Except.ok (true, [])
    ∧ get_len 0 ⟨none, Except.ok 5⟩ = Except.ok (.intLen 5, []) := by
  have h := has_len_get_len_positive 0 ⟨none, Except.ok 5⟩ 5 rfl (by decide)
  simpa [has_iterable_dataset] using h

/-- Claim C2: for every dataloader whose length query succeeds with
exactly zero, has_len raises the ValueError saying the dataloader must
return at least 1 batch, and get_len (which calls has_len) propagates the
same error: it is never absorbed into a false result. -/
theorem has_len_zero_raises (rank : Nat) (dl : DataLoader)
    (hq : pyLen dl = Except.ok 0) :
    has_len rank dl = Except.error (.valueError emptyLenMsg)
    ∧ get_len rank dl = Except.error (.valueError emptyLenMsg) := by
  have h1 : has_len rank dl = Except.error (.valueError emptyLenMsg) := by
    rw [has_len_eq, hq]
  refine ⟨h1, ?_⟩
  unfold get_len
  rw [h1]

/-- Witness for C2: a zero-length dataloader makes both has_len and
get_len fail with the ValueError. -/
theorem has_len_zero_raises_witness :
    has_len 0 ⟨none, Except.ok 0⟩ = Except.error (.valueError emptyLenMsg)
    ∧ get_len 0 ⟨none, Except.ok 0⟩ = Except.error (.valueError emptyLenMsg) :=
  has_len_zero_raises 0 ⟨none, Except.ok 0⟩ rfl

/-- Claim C3: has_len returns false exactly when the length query fails
with TypeError or NotImplementedError; in that case get_len returns the
infinity sentinel; and every other exception raised by the length query
propagates to the caller unwrapped through both has_len and get_len. -/
theorem has_len_false_iff_unsupported (rank : Nat) (dl : DataLoader) :
    ((∃ w, has_len rank dl = Except.ok (false, w)) ↔
        (pyLen dl = Except.error PyExc.typeError ∨
          pyLen dl = Except.error PyExc.notImplementedError))
    ∧ (∀ w, has_len rank dl = Except.ok (false, w) →
        get_len rank dl = Except.ok (.inf, w))
    ∧ (∀ e, pyLen dl = Except.error e → e ≠ PyExc.typeError →
        e ≠ PyExc.notImplementedError →
        has_len rank dl = Except.error e ∧ get_len rank dl = Except.error e) := by
  refine ⟨⟨?_, ?_⟩, ?_, ?_⟩
  · rintro ⟨w, hw⟩
    rw [has_len_eq] at hw
    cases hq : pyLen dl with
    | ok n => rw [hq] at hw; cases n <;> simp_all
    | error e => rw [hq] at hw; cases e <;> simp_all
  · rintro (hq | hq) <;> exact ⟨[], by rw [has_len_eq, hq]⟩
  · intro w hw
    unfold get_len
    rw [hw]
    rfl
  · intro e hq h1 h2
    have hl : has_len rank dl = Except.error e := by
      rw [has_len_eq, hq]
      cases e with
      | typeError => exact absurd rfl h1
      | notImplementedError => exact absurd rfl h2
      | valueError msg => rfl
      | other msg => rfl
    refine ⟨hl, ?_⟩
    unfold get_len
    rw [hl]

/-- Witness for C3: a TypeError-raising length query yields false, and a
length query raising an unrelated exception propagates it through both
has_len and get_len. -/
theorem has_len_false_iff_unsupported_witness :
    (∃ w, has_len 0 ⟨none, Except.error PyExc.typeError⟩ = Except.ok (false, w))
    ∧ (has_len 0 ⟨none, Except.error (PyExc.other "boom")⟩ =
          Except.error (PyExc.other "boom")
        ∧ get_len 0 ⟨none, Except.error (PyExc.other "boom")⟩ =
          Except.error (PyExc.other "boom")) :=
  ⟨(has_len_false_iff_unsupported 0 ⟨none, Except.error PyExc.typeError⟩).1.2 (Or.inl rfl),
   (has_len_false_iff_unsupported 0 ⟨none, Except.error (PyExc.other "boom")⟩).2.2
      (PyExc.other "boom") rfl (by decide) (by decide)⟩

/-- Claim C8: whenever has_len returns true on a dataloader whose
dataset is iterable-variant, it emits exactly one advisory warning, and
only on the primary process (rank 0); the warning never alters the
returned boolean (any other rank gets the same boolean); in every other
case has_len emits no warning. -/
theorem has_len_warning (rank : Nat) (dl : DataLoader) (hl : Bool) (w : List String)
    (h : has_len rank dl = Except.ok (hl, w)) :
    (hl = true → has_iterable_dataset dl = true →
        w = rank_zero_warn rank warnMsg
        ∧ (rank = 0 → w = [warnMsg]) ∧ (rank ≠ 0 → w = []))
    ∧ ((hl = false ∨ has_iterable_dataset dl = false) → w = [])
    ∧ (∀ rank2, ∃ w2, has_len rank2 dl = Except.ok (hl, w2)) := by
  rw [has_len_eq] at h
  cases hq : pyLen dl with
  | ok n =>
      rw [hq] at h
      cases n with
      | zero => simp at h
      | succ m =>
          simp only [Except.ok.injEq, Prod.mk.injEq] at h
          obtain ⟨hhl, hww⟩ := h
          subst hhl
          subst hww
          refine ⟨?_, ?_, ?_⟩
          · intro _ hit
            refine ⟨by simp [hit], ?_, ?_⟩
            · intro hr
              simp [hit, rank_zero_warn, hr]
            · intro hr
              simp [hit, rank_zero_warn, hr]
          · rintro (hfalse | hit)
            · exact absurd hfalse (by simp)
            · simp [hit]
          · intro rank2
            refine ⟨if has_iterable_dataset dl then rank_zero_warn rank2 warnMsg else [], ?_⟩
            rw [has_len_eq, hq]
            rfl
  | error e =>
      rw [hq] at h
      cases e with
      | typeError =>
          simp only [Except.ok.injEq, Prod.mk.injEq] at h
          obtain ⟨hhl, hww⟩ := h
          subst hhl
          subst hww
          exact ⟨fun hfalse _ => absurd hfalse (by simp), fun _ => rfl,
            fun rank2 => ⟨[], by rw [has_len_eq, hq]⟩⟩
      | notImplementedError =>
          simp only [Except.ok.injEq, Prod.mk.injEq] at h
          obtain ⟨hhl, hww⟩ := h
          subst hhl
          subst hww
          exact ⟨fun hfalse _ => absurd hfalse (by simp), fun _ => rfl,
            fun rank2 => ⟨[], by rw [has_len_eq, hq]⟩⟩
      | valueError msg => simp at h
      | other msg => simp at h

/-- Witness for C8: a length-10 dataloader over an iterable-variant
dataset emits the warning on rank 0 as computed by rank_zero_warn, and
still returns true on another rank. -/
theorem has_len_warning_witness :
    ([warnMsg] : List String) = rank_zero_warn 0 warnMsg
    ∧ (∃ w2, has_len 5 ⟨some ⟨true⟩, Except.ok 10⟩ = Except.ok (true, w2)) :=
  ⟨((has_len_warning 0 ⟨some ⟨true⟩, Except.ok 10⟩ true [warnMsg] (by rfl)).1 rfl rfl).1,
   (has_len_warning 0 ⟨some ⟨true⟩, Except.ok 10⟩ true [warnMsg] (by rfl)).2.2 5⟩

/-- Claim C10: get_len inherits the advisory-warning side effect of
has_len: on a dataloader with a positive declared length and an
iterable-variant dataset, get_len on the primary process (rank 0) emits
the warning and returns the integer length, while on any other rank it
returns the same length with no warning. -/
theorem get_len_inherits_warning (dl : DataLoader) (n : Nat)
    (hq : pyLen dl = Except.ok n) (hpos : 0 < n)
    (hit : has_iterable_dataset dl = true) :
    get_len 0 dl = Except.ok (.intLen n, [warnMsg])
    ∧ (∀ rank, rank ≠ 0 → get_len rank dl = Except.ok (.intLen n, [])) := by
  obtain ⟨m, rfl⟩ : ∃ m, n = m + 1 := ⟨n - 1, by omega⟩
  constructor
  · have h1 : has_len 0 dl = Except.ok (true, [warnMsg]) := by
      rw [has_len_eq, hq]
      simp [hit, rank_zero_warn]
    unfold get_len
    rw [h1, hq]
    rfl
  · intro rank hr
    have h1 : has_len rank dl = Except.ok (true, []) := by
      rw [has_len_eq, hq]
      simp [hit, rank_zero_warn, hr]
    unfold get_len
    rw [h1, hq]
    rfl

/-- Witness for C10: a length-10 dataloader with an iterable-variant
dataset makes get_len return 10 with the warning on rank 0 and without
it on rank 1. -/
theorem get_len_inherits_warning_witness :
    get_len 0 ⟨some ⟨true⟩, Except.ok 10⟩ = Except.ok (.intLen 10, [warnMsg])
    ∧ get_len 1 ⟨some ⟨true⟩, Except.ok 10⟩ = Except.ok (.intLen 10, []) :=
  ⟨(get_len_inherits_warning ⟨some ⟨true⟩, Except.ok 10⟩ 10 rfl (by decide) rfl).1,
   (get_len_inherits_warning ⟨some ⟨true⟩, Except.ok 10⟩ 10 rfl (by decide) rfl).2
      1 (by decide)⟩

end PLData
